import Mathlib

/-!
# GiggleGrid orchestration core — shallow embedding

Shallow embedding of the photobooth orchestration core of the GiggleGrid
repository:

* `src/frontend/src/detection.js` — presence tracking (debounced face
  presence); the repository contains several detector variants: a
  frame-threshold debounce (Blazeface / face-api variants) and an
  elapsed-time debounce (MediaPipe variant).
* `countdown.js` — the cancellable countdown timer.
* `src/frontend/src/qr.js` — QR rendering, library loading, and the
  result-display auto-reset timer.
* `src/frontend/src/app.js` — the booth state machine
  (IDLE → COUNTDOWN → CAPTURE → UPLOAD → QR → IDLE).

DOM manipulation (class lists, text content) is not modelled; surfaced
error messages are modelled as a list of strings (each `showError(msg)`
call conses `msg`).  Asynchronous callbacks are modelled as serialized
events on explicit state, matching the single-threaded browser event
loop: a handler runs to its next suspension point before any other event
is dispatched.
-/

namespace GiggleGrid

/-! ## Configuration (`config.js`) -/

/-- `CONFIG.COUNTDOWN_SECONDS` in `config.js`. -/
def CONFIG_COUNTDOWN_SECONDS : Nat := 5

/-- `CONFIG.QR_DISPLAY_SECONDS` in `config.js`. -/
def CONFIG_QR_DISPLAY_SECONDS : Nat := 15

/-- `CONFIG.DETECTION_FRAME_THRESHOLD` in `config.js`. -/
def CONFIG_DETECTION_FRAME_THRESHOLD : Nat := 3

/-- `CONFIG.DETECTION_MIN_PRESENCE_MS` is absent from `config.js`, so the
MediaPipe variant's `CONFIG.DETECTION_MIN_PRESENCE_MS || 0` evaluates
to `0`. -/
def CONFIG_DETECTION_MIN_PRESENCE_MS : Nat := 0

/-! ## PresenceTracker — frame-threshold variant (`detection.js`,
Blazeface / face-api variants)

Module-level mutable state `consecutiveFrames` / `personPresent`, updated
by `handleResults`.  A callback invocation `onPresenceChange(p)` is
modelled as the `Option Bool` component of the result (`some p` when the
callback fires, `none` when it does not). -/

/-- The module state of the frame-threshold detector variants:
`consecutiveFrames` and `personPresent` in `detection.js`. -/
structure DetState where
  consecutiveFrames : Nat
  personPresent : Bool
deriving DecidableEq, Repr

/-- Initial module state of `detection.js` (`consecutiveFrames = 0`,
`personPresent = false`). -/
def detInit : DetState := ⟨0, false⟩

/-- `handleResults` of the Blazeface / face-api detector variants, after
the per-frame detections have been condensed into the boolean `hasFace`:
increment or clear `consecutiveFrames`, compare the streak against
`CONFIG.DETECTION_FRAME_THRESHOLD`, and invoke `onPresenceChange` when
the derived presence differs from `personPresent`. -/
def handleResultsFrames (threshold : Nat) (s : DetState) (hasFace : Bool) :
    DetState × Option Bool :=
  let consec := if hasFace then s.consecutiveFrames + 1 else 0
  let shouldBePresent : Bool := decide (threshold ≤ consec)
  if shouldBePresent ≠ s.personPresent then
    (⟨consec, shouldBePresent⟩, some shouldBePresent)
  else
    (⟨consec, s.personPresent⟩, none)

/-- Run `handleResultsFrames` over a list of per-frame observations,
collecting the emitted `presenceChanged` notifications in order. -/
def runFrames (threshold : Nat) : DetState → List Bool → DetState × List Bool
  | s, [] => (s, [])
  | s, f :: fs =>
    let step := handleResultsFrames threshold s f
    let rest := runFrames threshold step.1 fs
    (rest.1, match step.2 with
      | some p => p :: rest.2
      | none => rest.2)

/-- `resetDetection` of the Blazeface / face-api variants: sets
`consecutiveFrames = 0` and `personPresent = false`.  The function body
contains no call to `onPresenceChange`, so no notification is ever
emitted (`none`). -/
def resetDetection (_s : DetState) : DetState × Option Bool :=
  (⟨0, false⟩, none)

/-! ## PresenceTracker — MediaPipe variant (`detection.js`, MediaPipe
FaceDetection wrapper)

This variant additionally keeps `presenceStartMs` (the timestamp of the
first frame of the current streak) and derives presence from *elapsed
wall time*, not from the frame count. -/

/-- The module state of the MediaPipe detector variant:
`consecutiveFrames`, `personPresent`, `presenceStartMs` (null is
`none`). -/
structure MpState where
  consecutiveFrames : Nat
  personPresent : Bool
  presenceStartMs : Option Nat
deriving DecidableEq, Repr

/-- Initial module state of the MediaPipe variant. -/
def mpInit : MpState := ⟨0, false, none⟩

/-- `handleResults` of the MediaPipe variant.  `now` stands for
`performance.now()` at this invocation (a monotone clock, so
`presenceStartMs ≤ now` on every real trace).  The presence decision is
`elapsedMs >= (CONFIG.DETECTION_MIN_PRESENCE_MS || 0)` where `elapsedMs`
is `now - presenceStartMs` when `presenceStartMs` is set and `0`
otherwise. -/
def handleResultsMp (minPresenceMs : Nat) (s : MpState) (hasFace : Bool)
    (now : Nat) : MpState × Option Bool :=
  let consec := if hasFace then s.consecutiveFrames + 1 else 0
  let startMs : Option Nat :=
    if hasFace then
      (if s.consecutiveFrames = 0 then some now else s.presenceStartMs)
    else none
  let elapsedMs := match startMs with
    | some t => now - t
    | none => 0
  let shouldBePresent : Bool := decide (minPresenceMs ≤ elapsedMs)
  if shouldBePresent ≠ s.personPresent then
    (⟨consec, shouldBePresent, startMs⟩, some shouldBePresent)
  else
    (⟨consec, s.personPresent, startMs⟩, none)

/-- `resetDetection` of the MediaPipe variant: clears the streak, forces
`personPresent = false`, nulls `presenceStartMs`, and emits no
notification. -/
def resetDetectionMp (_s : MpState) : MpState × Option Bool :=
  (⟨0, false, none⟩, none)

/-! ## CountdownTimer (`countdown.js`) — single-session promise semantics

`startCountdown` returns a promise and schedules a 1 Hz interval; the
interval callback decrements `remaining` and, on reaching `<= 0`, clears
the interval and calls `resolve()`.  `cancelCountdown` clears the
interval if one is scheduled.  The promise of a `startCountdown` call
has exactly one resolution site — the `resolve()` on completion; there
is no resolution on cancellation.

`CdSession` models one `startCountdown` call: `scheduled` is whether its
interval is currently scheduled (`timerId` pointing at it, not yet
cleared), `remaining` the closure variable, `resolvedCompleted` whether
`resolve()` has been called. -/

/-- State of one `startCountdown` session (`countdown.js`). -/
structure CdSession where
  scheduled : Bool
  remaining : Nat
  resolvedCompleted : Bool
deriving DecidableEq, Repr

/-- Events that can act on a countdown session: the interval callback
firing, or a `cancelCountdown` call. -/
inductive CdEvent where
  | tick
  | cancel
deriving DecidableEq, Repr

/-- The session state right after `startCountdown` is called:
interval scheduled, `remaining = CONFIG.COUNTDOWN_SECONDS`, promise
pending. -/
def startCountdownS : CdSession :=
  ⟨true, CONFIG_COUNTDOWN_SECONDS, false⟩

/-- One event on a countdown session, translated from `countdown.js`:
the interval callback does `remaining--` and, if `remaining <= 0`,
clears the interval and resolves the promise; `cancelCountdown` clears
the interval when one is scheduled (`timerId !== null`) and otherwise
only hides the DOM element.  A cleared interval never fires again, so a
`tick` on an unscheduled session is a no-op. -/
def cdStepS (s : CdSession) : CdEvent → CdSession
  | .tick =>
    if s.scheduled then
      let r := s.remaining - 1
      if r = 0 then ⟨false, 0, true⟩
      else { s with remaining := r }
    else s
  | .cancel =>
    if s.scheduled then { s with scheduled := false } else s

/-- Run a countdown session over a list of events. -/
def cdRunS : CdSession → List CdEvent → CdSession
  | s, [] => s
  | s, e :: es => cdRunS (cdStepS s e) es

/-- Whether the promise returned by `startCountdown` has settled.  In
`countdown.js` the executor captures a single `resolve` and never
captures `reject`; the only call site of `resolve` is the completion
branch of the interval callback, so the promise settles exactly when
`resolvedCompleted` holds — there is no "Cancelled" resolution in the
source. -/
def cdPromiseSettled (s : CdSession) : Bool := s.resolvedCompleted

/-! ## CountdownTimer (`countdown.js`) — module-level handle semantics

For the double-start behaviour we track the module variable `timerId`
and the set of intervals actually scheduled in the browser (an
un-cleared `setInterval` stays scheduled even if the variable holding
its id is overwritten).  `nextId` models the browser allocating fresh
timer ids. -/

/-- Module-level timer bookkeeping of `countdown.js`: the variable
`timerId`, the ids of intervals currently scheduled in the browser, and
a fresh-id counter. -/
structure CdModule where
  nextId : Nat
  timerId : Option Nat
  live : List Nat
deriving DecidableEq, Repr

/-- Initial module state of `countdown.js` (`timerId = null`, nothing
scheduled). -/
def cdModuleInit : CdModule := ⟨0, none, []⟩

/-- `startCountdown`, restricted to its timer bookkeeping: it
unconditionally executes `timerId = setInterval(...)` — there is no
check of `timerId`, no error path, and no clearing of a previously
scheduled interval. -/
def startCountdownM (m : CdModule) : CdModule :=
  ⟨m.nextId + 1, some m.nextId, m.nextId :: m.live⟩

/-- `cancelCountdown`: if `timerId !== null`, `clearInterval(timerId)`
and null the variable; otherwise only the DOM element is hidden. -/
def cancelCountdownM (m : CdModule) : CdModule :=
  match m.timerId with
  | some t => ⟨m.nextId, none, m.live.erase t⟩
  | none => m

/-- `isCountdownActive` in `countdown.js`: `timerId !== null`. -/
def isCountdownActive (m : CdModule) : Bool := m.timerId.isSome

/-! ## ResultDisplayTimer (`qr.js`) — module-level handle semantics

`showQRScreen` unconditionally executes `resetTimerId = setTimeout(...)`
(no check of `resetTimerId`); `hideQRScreen` clears a pending timeout
when `resetTimerId !== null`. -/

/-- Module-level timer bookkeeping of `qr.js`: the variable
`resetTimerId`, the ids of timeouts currently scheduled, and a fresh-id
counter. -/
structure QrModule where
  nextId : Nat
  resetTimerId : Option Nat
  live : List Nat
deriving DecidableEq, Repr

/-- Initial module state of `qr.js`. -/
def qrModuleInit : QrModule := ⟨0, none, []⟩

/-- `showQRScreen`, restricted to its timer bookkeeping: it
unconditionally overwrites `resetTimerId` with a fresh `setTimeout`
handle, without clearing a previously scheduled timeout. -/
def showQRScreenM (m : QrModule) : QrModule :=
  ⟨m.nextId + 1, some m.nextId, m.nextId :: m.live⟩

/-- `hideQRScreen`, restricted to its timer bookkeeping: if
`resetTimerId !== null`, `clearTimeout(resetTimerId)` and null the
variable. -/
def hideQRScreenM (m : QrModule) : QrModule :=
  match m.resetTimerId with
  | some t => ⟨m.nextId, none, m.live.erase t⟩
  | none => m

/-! ## QR library loading and rendering (`qr.js`) -/

/-- `QR_SOURCES` in `qr.js`: the script sources tried in order. -/
def QR_SOURCES : List String :=
  ["/assets/qrcode.min.js",
   "/assets/qrcode.js",
   "https://cdn.jsdelivr.net/npm/qrcode@1.4.4/build/qrcode.min.js"]

/-- The source-trying loop inside `ensureQRCodeLoaded`: each attempt
either makes the global `QRCode` available (modelled by the boolean
paired with the source) or fails, recording `lastError`; after the loop
the function throws `lastError ?? new Error("QRCode library not
available")`.  Failures are modelled with the message of the
`script.onerror` branch. -/
def tryLoadQR : List (String × Bool) → Option String → Except String Unit
  | [], lastError =>
    .error (lastError.getD "QRCode library not available")
  | (src, ok) :: rest, _ =>
    if ok then .ok ()
    else tryLoadQR rest (some ("Failed to load QRCode library from " ++ src))

/-- `ensureQRCodeLoaded` in `qr.js`: immediately returns when the global
`QRCode` is already defined; otherwise tries each source of
`QR_SOURCES` in order (`loadResults` gives the outcome of each
attempt). -/
def ensureQRCodeLoaded (alreadyLoaded : Bool) (loadResults : List Bool) :
    Except String Unit :=
  if alreadyLoaded then .ok ()
  else tryLoadQR (QR_SOURCES.zip loadResults) none

/-- `renderQR` in `qr.js`: clears the container, appends a canvas,
awaits `ensureQRCodeLoaded`, then awaits `QRCode.toCanvas` (an external
collaborator, assumed to succeed once the library is loaded).  The
rejection of `ensureQRCodeLoaded` propagates to the caller. -/
def renderQR (alreadyLoaded : Bool) (loadResults : List Bool) :
    Except String Unit :=
  ensureQRCodeLoaded alreadyLoaded loadResults

/-! ## BoothStateMachine (`app.js`)

The orchestrator.  `currentState` is one of the five members of the
`State` enum.  The asynchronous handlers of `app.js` are translated as
serialized events on an explicit `Booth` state: each event runs the
corresponding handler up to its next suspension point.

* `frame` — one iteration of `detectionLoop`: `detectFrame` is invoked
  only in `IDLE` and `COUNTDOWN`; the detector's `handleResults` may
  invoke `onPersonPresenceChange`.
* `cdTick` — the countdown interval callback; when the countdown
  completes, the `await startCountdown(...)` in `transitionTo` resumes:
  guard `currentState !== COUNTDOWN`, then `transitionTo(CAPTURE)`,
  which runs `capturePhoto` synchronously (its outcome is the event's
  `cap` parameter — `.error` when the capture step throws), awaits the
  flash, transitions to `UPLOAD` and starts `doUpload`.  There is no
  try/catch around `capturePhoto`: a thrown error rejects the un-awaited
  async `transitionTo(State.CAPTURE)` call and is otherwise unhandled.
* `uploadDone` — `doUpload` resumes with the terminal outcome of
  `uploadPhoto` (`.ok url` / `.error reason`) and, on success, the
  outcome of `await renderQR` (`rnd`); the shared catch runs
  `showError(err.message); transitionTo(State.IDLE)`.
* `qrExpiry` — the `setTimeout` scheduled by `showQRScreen` fires:
  `hideQRScreen` then `onReset()`, which is `() => transitionTo(IDLE)`.
* `cancelEarly` — Modelled from the spec: the "Take Another Photo"
  button wiring is not present under `src/`; per spec §4.5
  (`cancelEarly()` "also emits reset immediately") and the `qr.js`
  comment ("called when ... the user clicks Take Another Photo"), the
  user action invokes the `onReset` callback while the QR screen is
  showing, i.e. `transitionTo(State.IDLE)`.

`errors` records the messages surfaced by `showError` (most recent
first); `resets` counts the invocations of the `onReset` callback handed
to `showQRScreen`. -/

/-- The `State` enum of `app.js`. -/
inductive BoothState where
  | IDLE
  | COUNTDOWN
  | CAPTURE
  | UPLOAD
  | QR
deriving DecidableEq, Repr

/-- The observable state of the orchestrator: `currentState`, the
detector module state, the countdown interval (scheduled flag and the
`remaining` closure variable), whether a `doUpload` is in flight, the
QR reset timeout, the surfaced error messages, and the count of
`onReset` invocations. -/
structure Booth where
  state : BoothState
  det : DetState
  cdScheduled : Bool
  cdRemaining : Nat
  uploadInFlight : Bool
  qrScheduled : Bool
  errors : List String
  resets : Nat
deriving DecidableEq, Repr

/-- The booth at page load: `currentState = IDLE`, detector fresh,
no timers, no upload. -/
def boothInit : Booth := ⟨.IDLE, detInit, false, 0, false, false, [], 0⟩

/-- `showIdle` in `app.js`: show the prompt, `hideQRScreen` (clears a
pending reset timeout), `resetDetection`. -/
def showIdle (b : Booth) : Booth :=
  { b with qrScheduled := false, det := (resetDetection b.det).1 }

/-- `transitionTo(State.IDLE)`: set `currentState`, then the `IDLE` case
runs `showIdle`. -/
def toIdle (b : Booth) : Booth :=
  showIdle { b with state := .IDLE }

/-- `transitionTo(State.COUNTDOWN)` up to its suspension point: set
`currentState`, hide the prompt, call `startCountdown` (which schedules
the interval with `remaining = CONFIG.COUNTDOWN_SECONDS`) and suspend on
its promise. -/
def toCountdown (b : Booth) : Booth :=
  { b with
      state := .COUNTDOWN
      cdScheduled := true
      cdRemaining := CONFIG_COUNTDOWN_SECONDS }

/-- `showError` in `app.js`: put the message in the error toast (the
5-second auto-hide is DOM-only and not modelled). -/
def showError (b : Booth) (msg : String) : Booth :=
  { b with errors := msg :: b.errors }

/-- `onPersonPresenceChange` in `app.js`: presence in `IDLE` starts the
countdown; absence in `COUNTDOWN` cancels the countdown, resets the
detector and returns to `IDLE`; every other (state, event) combination
falls through both conditions and does nothing. -/
def onPersonPresenceChange (b : Booth) (isPresent : Bool) : Booth :=
  if isPresent ∧ b.state = .IDLE then
    toCountdown b
  else if ¬isPresent ∧ b.state = .COUNTDOWN then
    toIdle { b with cdScheduled := false, det := (resetDetection b.det).1 }
  else b

/-- The continuation after `await startCountdown(...)` resolves in the
`COUNTDOWN` case of `transitionTo`, composed with the `CAPTURE` and
`UPLOAD` cases it cascades into: bail if `currentState` changed; set
`currentState = CAPTURE`; run `capturePhoto` (outcome `cap`); when the
capture step throws, the exception propagates out of the un-awaited
async call and nothing else runs — the machine stays in `CAPTURE` and no
error is surfaced; on success, await the flash, set
`currentState = UPLOAD` and start `doUpload`. -/
def onCountdownComplete (cap : Except String String) (b : Booth) : Booth :=
  if b.state ≠ .COUNTDOWN then b
  else
    let b1 : Booth := { b with state := .CAPTURE }
    match cap with
    | .error _ => b1
    | .ok _img => { b1 with state := .UPLOAD, uploadInFlight := true }

/-- The countdown interval callback (`countdown.js`) wired into the
booth: `remaining--`; on `remaining <= 0` clear the interval, resolve
the promise, and run the awaiting continuation
(`onCountdownComplete`). -/
def cdIntervalTick (cap : Except String String) (b : Booth) : Booth :=
  if b.cdScheduled then
    let r := b.cdRemaining - 1
    if r = 0 then
      onCountdownComplete cap { b with cdScheduled := false, cdRemaining := 0 }
    else { b with cdRemaining := r }
  else b

/-- `showQRScreen` (`qr.js`) as seen by the booth: show the screen and
schedule the auto-reset timeout. -/
def showQRScreenB (b : Booth) : Booth :=
  { b with qrScheduled := true }

/-- The continuation of `doUpload` in `app.js` once `uploadPhoto`
terminates (outcome) and, on success, `renderQR` settles (`rnd`):
success of both sets `currentState = State.QR` and calls `showQRScreen`;
any rejection is caught by the single catch block, which runs
`showError(err.message)` and `transitionTo(State.IDLE)`. -/
def onUploadDone (b : Booth) (outcome : Except String String)
    (rnd : Except String Unit) : Booth :=
  let b1 : Booth := { b with uploadInFlight := false }
  match outcome with
  | .error msg => toIdle (showError b1 msg)
  | .ok _url =>
    match rnd with
    | .error msg => toIdle (showError b1 msg)
    | .ok _ => showQRScreenB { b1 with state := .QR }

/-- The auto-reset timeout scheduled by `showQRScreen` fires:
`hideQRScreen(qrScreenEl)` then `onReset()`, i.e.
`transitionTo(State.IDLE)`.  A cleared timeout never fires, so this is a
no-op when no reset timeout is scheduled. -/
def qrExpiryStep (b : Booth) : Booth :=
  if b.qrScheduled then
    toIdle { b with qrScheduled := false, resets := b.resets + 1 }
  else b

/-- Modelled from the spec: the "Take Another Photo" early-cancel wiring
is missing from `src/` (only the `qr.js` doc comment and spec §4.5
describe it).  Per the spec, the user action during the result screen
invokes the reset immediately: the `onReset` callback
(`() => transitionTo(State.IDLE)`) runs, and `transitionTo(IDLE)`'s
`showIdle` hides the QR screen and clears the pending timeout. -/
def cancelEarlyStep (b : Booth) : Booth :=
  if b.state = .QR then
    toIdle { b with resets := b.resets + 1 }
  else b

/-- Decidable equality for `Except`, needed so that concrete booth runs
can be checked by `decide`. -/
instance instDecidableEqExcept {ε α : Type} [DecidableEq ε] [DecidableEq α] :
    DecidableEq (Except ε α) := fun x y =>
  match x, y with
  | .ok a, .ok b =>
    if h : a = b then .isTrue (by rw [h]) else .isFalse (by simp [h])
  | .ok _, .error _ => .isFalse (by simp)
  | .error _, .ok _ => .isFalse (by simp)
  | .error e, .error f =>
    if h : e = f then .isTrue (by rw [h]) else .isFalse (by simp [h])

/-- The serialized events that can reach the orchestrator. -/
inductive BoothEvent where
  | frame (hasFace : Bool)
  | cdTick (cap : Except String String)
  | uploadDone (outcome : Except String String) (rnd : Except String Unit)
  | qrExpiry
  | cancelEarly
deriving DecidableEq, Repr

/-- One iteration of `detectionLoop` in `app.js`: `detectFrame` runs
only in `IDLE` and `COUNTDOWN`; the detector's `handleResults` updates
the module state and may invoke `onPersonPresenceChange`. -/
def onFrame (b : Booth) (hasFace : Bool) : Booth :=
  if b.state = .IDLE ∨ b.state = .COUNTDOWN then
    let step := handleResultsFrames CONFIG_DETECTION_FRAME_THRESHOLD b.det hasFace
    let b1 : Booth := { b with det := step.1 }
    match step.2 with
    | some p => onPersonPresenceChange b1 p
    | none => b1
  else b

/-- Dispatch one serialized event.  An `uploadDone` event exists only
for an upload that was actually started (`doUpload` in flight). -/
def boothStep (b : Booth) : BoothEvent → Booth
  | .frame hasFace => onFrame b hasFace
  | .cdTick cap => cdIntervalTick cap b
  | .uploadDone outcome rnd =>
    if b.uploadInFlight then onUploadDone b outcome rnd else b
  | .qrExpiry => qrExpiryStep b
  | .cancelEarly => cancelEarlyStep b

/-- Run the orchestrator over a list of serialized events. -/
def boothRun : Booth → List BoothEvent → Booth
  | b, [] => b
  | b, e :: es => boothRun (boothStep b e) es

/-- Events local to one `ShowingResult` session: perception frames, the
result-display expiry, and the early cancel.  (Starting a whole new
session — a fresh countdown completion and upload — is excluded, since a
later session legitimately produces its own reset.) -/
def sessionLocal : BoothEvent → Bool
  | .frame _ => true
  | .qrExpiry => true
  | .cancelEarly => true
  | _ => false

/-! ## Helper lemmas -/

/-- Feeding positive frames while the streak is still strictly below the
threshold advances the streak and emits no notification. -/
theorem runFrames_pos_below (N : Nat) :
    ∀ (m k : Nat), k + m < N →
      runFrames N ⟨k, false⟩ (List.replicate m true) = (⟨k + m, false⟩, []) := by
  intro m
  induction m with
  | zero => intro k _; simp [runFrames]
  | succ m ih =>
    intro k h
    rw [List.replicate_succ]
    have hstep : handleResultsFrames N ⟨k, false⟩ true = (⟨k + 1, false⟩, none) := by
      have hlt : ¬ N ≤ k + 1 := by omega
      simp [handleResultsFrames, hlt]
    have hrest := ih (k + 1) (by omega)
    simp only [runFrames, hstep, hrest]
    have : k + 1 + m = k + (m + 1) := by omega
    rw [this]

/-- `runFrames` over an appended observation list splits into two
runs with the notification lists concatenated. -/
theorem runFrames_append (N : Nat) (s : DetState) (l1 l2 : List Bool) :
    runFrames N s (l1 ++ l2) =
      ((runFrames N (runFrames N s l1).1 l2).1,
       (runFrames N s l1).2 ++ (runFrames N (runFrames N s l1).1 l2).2) := by
  induction l1 generalizing s with
  | nil => simp [runFrames]
  | cons f fs ih =>
    simp only [List.cons_append, runFrames, List.append_eq]
    rw [ih]
    cases (handleResultsFrames N s f).2 <;> simp

/-- Once a countdown session's interval is cleared without the promise
having resolved, no later event can schedule it again or resolve it. -/
theorem cdRunS_dead (s : CdSession) (evs : List CdEvent)
    (h1 : s.scheduled = false) (h2 : s.resolvedCompleted = false) :
    (cdRunS s evs).scheduled = false ∧
    (cdRunS s evs).resolvedCompleted = false := by
  induction evs generalizing s with
  | nil => exact ⟨h1, h2⟩
  | cons e es ih =>
    have hstep : cdStepS s e = s := by
      cases e <;> simp [cdStepS, h1]
    rw [cdRunS, hstep]
    exact ih s h1 h2

/-! ## Claims -/

/-- Claim C1: for every (state, event) pair not listed in the transition
table, processing a `presenceChanged` event leaves the machine
unchanged: `onPersonPresenceChange` acts only on `(IDLE, true)` and
`(COUNTDOWN, false)`; in particular presence changes in `CAPTURE`,
`UPLOAD` and `QR`, a `presenceChanged(true)` in `COUNTDOWN`, and a
`presenceChanged(false)` in `IDLE` are no-ops (the whole booth state,
not just `currentState`, is unchanged). -/
theorem C1_no_op_coverage (b : Booth) (p : Bool)
    (h1 : ¬(p = true ∧ b.state = .IDLE))
    (h2 : ¬(p = false ∧ b.state = .COUNTDOWN)) :
    onPersonPresenceChange b p = b := by
  cases p <;> simp_all [onPersonPresenceChange]

/-- Witness for C1: a `presenceChanged(true)` received while uploading
alters nothing. -/
theorem C1_no_op_coverage_witness :
    onPersonPresenceChange ⟨.UPLOAD, detInit, false, 0, true, false, [], 0⟩ true
      = ⟨.UPLOAD, detInit, false, 0, true, false, [], 0⟩ :=
  C1_no_op_coverage _ true (by decide) (by decide)

/-- Claim C2, counterexample: the MediaPipe `handleResults` (one of the
two variants the claim covers) does not wait for the configured frame
threshold (`CONFIG.DETECTION_FRAME_THRESHOLD = 3`): it compares elapsed
wall time against `CONFIG.DETECTION_MIN_PRESENCE_MS || 0`, which is `0`
because that key is absent from `config.js`, so it raises
`presenceChanged(true)` already on the first positive observation
(streak 1 < threshold 3), not "only after the Nth consecutive
positive". -/
theorem C2_mediapipe_counterexample :
    (handleResultsMp CONFIG_DETECTION_MIN_PRESENCE_MS mpInit true 1000).2
        = some true ∧
    (handleResultsMp CONFIG_DETECTION_MIN_PRESENCE_MS mpInit true 1000).1.consecutiveFrames
        = 1 ∧
    1 < CONFIG_DETECTION_FRAME_THRESHOLD := by decide

/-- Claim C2, amended: for the frame-threshold detector variants
(Blazeface / face-api), `presenceChanged(true)` is raised exactly when
the streak of consecutive positive observations reaches the configured
threshold `N`, and once present a single negative observation raises
`presenceChanged(false)` immediately; the MediaPipe variant instead
compares elapsed time against `DETECTION_MIN_PRESENCE_MS || 0 = 0` and
therefore raises `presenceChanged(true)` on the first positive
observation. -/
theorem C2_debounce_amended (N : Nat) (hN : 1 ≤ N) :
    (∀ m, m < N → (runFrames N detInit (List.replicate m true)).2 = []) ∧
    (runFrames N detInit (List.replicate N true)).2 = [true] ∧
    (∀ s : DetState, s.personPresent = true →
      handleResultsFrames N s false = (⟨0, false⟩, some false)) ∧
    (∀ s : DetState, s.personPresent = false →
      ((handleResultsFrames N s true).2 = some true ↔
        N ≤ s.consecutiveFrames + 1)) ∧
    (∀ t : Nat, (handleResultsMp 0 mpInit true t).2 = some true) := by
  refine ⟨?_, ?_, ?_, ?_, ?_⟩
  · intro m hm
    rw [show detInit = (⟨0, false⟩ : DetState) from rfl,
      runFrames_pos_below N m 0 (by omega)]
  · obtain ⟨M, rfl⟩ : ∃ M, N = M + 1 := ⟨N - 1, by omega⟩
    rw [List.replicate_succ' M true,
      show detInit = (⟨0, false⟩ : DetState) from rfl,
      runFrames_append, runFrames_pos_below (M + 1) M 0 (by omega)]
    have hstep : (handleResultsFrames (M + 1) ⟨M, false⟩ true).2
        = some true := by
      have hle : M + 1 ≤ M + 1 := le_refl _
      simp [handleResultsFrames, hle]
    simp [runFrames, hstep]
  · intro s hs
    have hlt : ¬ N ≤ 0 := by omega
    simp [handleResultsFrames, hs, hlt]
  · intro s hs
    by_cases h : N ≤ s.consecutiveFrames + 1 <;>
      simp [handleResultsFrames, hs, h]
  · intro t
    simp [handleResultsMp, mpInit]

/-- Witness for C2 (amended): with the configured threshold 3, presence
flips true exactly at the third consecutive positive observation. -/
theorem C2_debounce_amended_witness :
    (runFrames 3 detInit (List.replicate 3 true)).2 = [true] :=
  (C2_debounce_amended 3 (by decide)).2.1

/-- Claim C3, counterexample: the claim says `cancel()` while active
makes the start promise resolve with `Cancelled`.  In `countdown.js` the
promise's only resolution site is the completion branch of the interval
callback; after `cancelCountdown` on the freshly started session (and
ten further tick opportunities) the promise has not settled at all, so
it never resolves with any value. -/
theorem C3_cancel_counterexample :
    startCountdownS.scheduled = true ∧
    cdPromiseSettled
        (cdRunS (cdStepS startCountdownS .cancel) (List.replicate 10 .tick))
      = false := by decide

/-- Claim C3, amended: if `cancelCountdown` is called while the
countdown is active, no timer remains scheduled afterwards and no
`Completed` resolution (hence no Counting→Capturing transition) is ever
observable for that session, even against any later tick opportunities;
however the start promise never settles at all (the code has no
`Cancelled` resolution — the awaiting caller is simply abandoned, and
`app.js` relies on its separate `currentState` check instead). -/
theorem C3_cancel_amended (s : CdSession) (evs : List CdEvent)
    (hact : s.scheduled = true) (hpend : s.resolvedCompleted = false) :
    (cdRunS (cdStepS s .cancel) evs).scheduled = false ∧
    cdPromiseSettled (cdRunS (cdStepS s .cancel) evs) = false := by
  have hc1 : (cdStepS s .cancel).scheduled = false := by
    simp [cdStepS, hact]
  have hc2 : (cdStepS s .cancel).resolvedCompleted = false := by
    simp [cdStepS, hact, hpend]
  exact cdRunS_dead _ evs hc1 hc2

/-- Witness for C3 (amended): cancelling the freshly started countdown
leaves nothing scheduled and the promise unsettled across two further
tick opportunities. -/
theorem C3_cancel_amended_witness :
    (cdRunS (cdStepS startCountdownS .cancel) [.tick, .tick]).scheduled
        = false ∧
    cdPromiseSettled (cdRunS (cdStepS startCountdownS .cancel) [.tick, .tick])
        = false :=
  C3_cancel_amended startCountdownS [.tick, .tick] (by decide) (by decide)

/-- Claim C4, counterexample: `startCountdown` has no active-check and
no error path: called while a countdown is active it silently schedules
a second interval and overwrites `timerId` — it does not fail and is not
rejected with `AlreadyRunning`. -/
theorem C4_double_start_counterexample :
    isCountdownActive (startCountdownM cdModuleInit) = true ∧
    (startCountdownM (startCountdownM cdModuleInit)).live.length = 2 ∧
    (startCountdownM (startCountdownM cdModuleInit)).timerId
      ≠ (startCountdownM cdModuleInit).timerId := by decide

/-- Claim C4, amended: calling `startCountdown` (or `showQRScreen`)
while a timer is already active does not fail: it silently schedules a
fresh timer and overwrites the module-level handle, and the previously
scheduled timer remains scheduled (it is never cleared, and the
overwritten handle makes it unreachable for `cancelCountdown` /
`hideQRScreen`). -/
theorem C4_double_start_amended (m : CdModule) (q : QrModule)
    (_hm : isCountdownActive m = true) (_hq : q.resetTimerId.isSome = true) :
    (startCountdownM m).live.length = m.live.length + 1 ∧
    (startCountdownM m).timerId = some m.nextId ∧
    m.live ⊆ (startCountdownM m).live ∧
    (showQRScreenM q).live.length = q.live.length + 1 ∧
    (showQRScreenM q).resetTimerId = some q.nextId ∧
    q.live ⊆ (showQRScreenM q).live := by
  refine ⟨rfl, rfl, ?_, rfl, rfl, ?_⟩ <;>
    exact fun t ht => List.mem_cons_of_mem _ ht

/-- Witness for C4 (amended): a second `startCountdown` while the first
is active adds a second live interval. -/
theorem C4_double_start_amended_witness :
    (startCountdownM (startCountdownM cdModuleInit)).live.length
      = (startCountdownM cdModuleInit).live.length + 1 :=
  (C4_double_start_amended (startCountdownM cdModuleInit)
    (showQRScreenM qrModuleInit) (by decide) (by decide)).1

/-- Claim C5: the `CAPTURE` case of `transitionTo` has no try/catch
around `capturePhoto`; when the capture step throws (frame source
unavailable), the machine is left in `CAPTURE` — it neither falls back
to `IDLE` nor surfaces any error.  Evaluated at the failing input: a
full session (threshold-3 presence, 5-second countdown) whose capture
step throws. -/
theorem C5_capture_failure_stuck :
    (boothRun boothInit
        ([.frame true, .frame true, .frame true]
          ++ List.replicate 5 (.cdTick (.error "CaptureError")))).state
      = .CAPTURE ∧
    (boothRun boothInit
        ([.frame true, .frame true, .frame true]
          ++ List.replicate 5 (.cdTick (.error "CaptureError")))).errors
      = [] ∧
    (boothRun boothInit
        ([.frame true, .frame true, .frame true]
          ++ List.replicate 5 (.cdTick (.error "CaptureError")))).uploadInFlight
      = false := by decide

/-- Claim C6: every upload terminating in `Failure(reason)` surfaces the
reason string (`showError(err.message)`), returns the machine to `IDLE`,
and never enters the `QR` (ShowingResult) state for that session — in
particular no result-display timer is started. -/
theorem C6_upload_failure_to_idle (b : Booth) (reason : String)
    (rnd : Except String Unit) :
    (onUploadDone b (.error reason) rnd).state = .IDLE ∧
    (onUploadDone b (.error reason) rnd).errors = reason :: b.errors ∧
    (onUploadDone b (.error reason) rnd).qrScheduled = false ∧
    (onUploadDone b (.error reason) rnd).state ≠ .QR :=
  ⟨rfl, rfl, rfl, fun h => BoothState.noConfusion h⟩

/-- Claim C7, counterexample: the claim says `reset()` emits
`presenceChanged(false)` when `present` was true at the time of the
call; but `resetDetection` (in every detector variant) contains no call
to the `onPresenceChange` callback, so with `personPresent = true` it
emits nothing. -/
theorem C7_reset_counterexample :
    (resetDetection ⟨4, true⟩).2 = none ∧
    (resetDetectionMp ⟨4, true, some 100⟩).2 = none := by decide

/-- Claim C7, amended: `resetDetection` clears the streak counter and
forces `present = false`, and emits no `presenceChanged` notification in
either case (whether `present` was true or false beforehand). -/
theorem C7_reset_amended (s : DetState) (t : MpState) :
    resetDetection s = (⟨0, false⟩, none) ∧
    resetDetectionMp t = (⟨0, false, none⟩, none) :=
  ⟨rfl, rfl⟩

/-- Claim C10: after a successful upload the machine enters `QR`
(ShowingResult) exactly when `renderQR` succeeds; a `renderQR` rejection
(e.g. the QRCode library failing to load from all of its sources) is
handled by the same catch block as an upload failure — the identical
`showError` + `transitionTo(IDLE)` path — so the failure is surfaced and
`QR` is never entered. -/
theorem C10_qr_only_after_render (b : Booth) (url msg : String) :
    onUploadDone b (.ok url) (.error msg)
        = onUploadDone b (.error msg) (.ok ()) ∧
    (∀ rnd : Except String Unit,
      (onUploadDone b (.ok url) rnd).state = .QR ↔ rnd = .ok ()) ∧
    (onUploadDone b (.ok url) (.error msg)).state = .IDLE ∧
    (onUploadDone b (.ok url) (.error msg)).errors = msg :: b.errors ∧
    renderQR false [false, false, false]
      = .error "Failed to load QRCode library from https://cdn.jsdelivr.net/npm/qrcode@1.4.4/build/qrcode.min.js" := by
  refine ⟨rfl, ?_, rfl, rfl, by decide⟩
  intro rnd
  cases rnd with
  | ok u => cases u; simp [onUploadDone, showQRScreenB]
  | error e => simp [onUploadDone, toIdle, showIdle]

/-- Helper for C9: when one serialized event lands the machine in
`IDLE`, either it was a no-op from `IDLE` already, or it went through
`transitionTo(State.IDLE)` and `showIdle` reset the detector. -/
theorem booth_idle_entry (b : Booth) (e : BoothEvent)
    (hpost : (boothStep b e).state = .IDLE) :
    b.state = .IDLE ∨ (boothStep b e).det = detInit := by
  cases e with
  | frame hasFace =>
    simp only [boothStep, onFrame] at hpost ⊢
    by_cases hgate : b.state = .IDLE ∨ b.state = .COUNTDOWN
    · rw [if_pos hgate] at hpost ⊢
      rcases h2 : (handleResultsFrames CONFIG_DETECTION_FRAME_THRESHOLD b.det hasFace).2
        with _ | p
      · simp only [h2] at hpost
        exact Or.inl hpost
      · simp only [h2] at hpost ⊢
        simp only [onPersonPresenceChange] at hpost ⊢
        split_ifs at hpost ⊢ with hc1 hc2
        · simp [toCountdown] at hpost
        · exact Or.inr (by simp [toIdle, showIdle, resetDetection, detInit])
        · exact Or.inl (by simpa using hpost)
    · rw [if_neg hgate] at hpost
      exact Or.inl hpost
  | cdTick cap =>
    simp only [boothStep, cdIntervalTick] at hpost ⊢
    split_ifs at hpost ⊢ with hs hr
    · simp only [onCountdownComplete] at hpost ⊢
      split_ifs at hpost ⊢ with hcd
      · exact Or.inl (by simpa using hpost)
      · cases cap with
        | error msg => simp at hpost
        | ok img => simp at hpost
    · exact Or.inl (by simpa using hpost)
    · exact Or.inl hpost
  | uploadDone outcome rnd =>
    simp only [boothStep] at hpost ⊢
    split_ifs at hpost ⊢ with hf
    · cases outcome with
      | error msg =>
        exact Or.inr (by simp [onUploadDone, toIdle, showIdle, resetDetection, detInit])
      | ok url =>
        cases rnd with
        | error msg =>
          exact Or.inr (by simp [onUploadDone, toIdle, showIdle, resetDetection, detInit])
        | ok u => simp [onUploadDone, showQRScreenB] at hpost
    · exact Or.inl hpost
  | qrExpiry =>
    simp only [boothStep, qrExpiryStep] at hpost ⊢
    split_ifs at hpost ⊢ with hq
    · exact Or.inr (by simp [toIdle, showIdle, resetDetection, detInit])
    · exact Or.inl hpost
  | cancelEarly =>
    simp only [boothStep, cancelEarlyStep] at hpost ⊢
    split_ifs at hpost ⊢ with hq
    · exact Or.inr (by simp [toIdle, showIdle, resetDetection, detInit])
    · exact Or.inl hpost

/-- Claim C9: every entry into `IDLE` from a different state — cancelled
countdown, upload failure, QR-render failure, result-window expiry,
early cancel — runs `showIdle`, whose `resetDetection` clears the streak
and forces `present = false`.  Events are serialized (the handler
commits its state before the perception loop's next observation is
dispatched), so the next observation is processed from the reset
detector state. -/
theorem C9_idle_entry_resets (b : Booth) (e : BoothEvent)
    (hpre : b.state ≠ .IDLE) (hpost : (boothStep b e).state = .IDLE) :
    (boothStep b e).det = detInit ∧
    (boothStep b e).det.consecutiveFrames = 0 ∧
    (boothStep b e).det.personPresent = false := by
  rcases booth_idle_entry b e hpost with h | h
  · exact absurd h hpre
  · exact ⟨h, by rw [h]; rfl, by rw [h]; rfl⟩

/-- Witness for C9: result-window expiry from `QR` with a stale streak
leaves the detector fully reset. -/
theorem C9_idle_entry_resets_witness :
    (boothStep ⟨.QR, ⟨7, true⟩, false, 0, false, true, [], 0⟩ .qrExpiry).det
        = detInit ∧
    (boothStep ⟨.QR, ⟨7, true⟩, false, 0, false, true, [], 0⟩ .qrExpiry).det.consecutiveFrames
        = 0 ∧
    (boothStep ⟨.QR, ⟨7, true⟩, false, 0, false, true, [], 0⟩ .qrExpiry).det.personPresent
        = false :=
  C9_idle_entry_resets _ .qrExpiry (by decide) (by decide)

/-- Helper for C8 and the frame cases: `onPersonPresenceChange` either
starts the countdown, performs the cancel-to-idle transition, or leaves
the booth unchanged. -/
theorem onPersonPresenceChange_cases (b : Booth) (p : Bool) :
    onPersonPresenceChange b p = toCountdown b ∨
    onPersonPresenceChange b p
      = toIdle { b with cdScheduled := false, det := (resetDetection b.det).1 } ∨
    onPersonPresenceChange b p = b := by
  unfold onPersonPresenceChange
  split_ifs <;> simp

/-- Helper for C8: one session-local event preserves the session
invariant — the reset count plus a pending reset-timeout potential never
exceeds one, a showing `QR` screen always has its timeout pending, and
the reset count never decreases. -/
theorem qr_session_step (b : Booth) (e : BoothEvent)
    (he : sessionLocal e = true)
    (h1 : b.resets + b.qrScheduled.toNat ≤ 1)
    (h2 : b.state = .QR → b.qrScheduled = true) :
    ((boothStep b e).resets + (boothStep b e).qrScheduled.toNat ≤ 1) ∧
    ((boothStep b e).state = .QR → (boothStep b e).qrScheduled = true) ∧
    b.resets ≤ (boothStep b e).resets := by
  cases e with
  | cdTick cap => simp [sessionLocal] at he
  | uploadDone outcome rnd => simp [sessionLocal] at he
  | qrExpiry =>
    by_cases hq : b.qrScheduled = true
    · rw [hq] at h1
      have h1x : b.resets + 1 ≤ 1 := h1
      have hstep : boothStep b .qrExpiry
          = toIdle { b with qrScheduled := false, resets := b.resets + 1 } := by
        simp [boothStep, qrExpiryStep, hq]
      rw [hstep]
      refine ⟨?_, fun h => BoothState.noConfusion h, ?_⟩
      · show b.resets + 1 + 0 ≤ 1
        omega
      · show b.resets ≤ b.resets + 1
        omega
    · have hstep : boothStep b .qrExpiry = b := by
        simp [boothStep, qrExpiryStep, hq]
      rw [hstep]
      exact ⟨h1, h2, le_refl _⟩
  | cancelEarly =>
    by_cases hq : b.state = .QR
    · rw [h2 hq] at h1
      have h1x : b.resets + 1 ≤ 1 := h1
      have hstep : boothStep b .cancelEarly
          = toIdle { b with resets := b.resets + 1 } := by
        simp [boothStep, cancelEarlyStep, hq]
      rw [hstep]
      refine ⟨?_, fun h => BoothState.noConfusion h, ?_⟩
      · show b.resets + 1 + 0 ≤ 1
        omega
      · show b.resets ≤ b.resets + 1
        omega
    · have hstep : boothStep b .cancelEarly = b := by
        simp [boothStep, cancelEarlyStep, hq]
      rw [hstep]
      exact ⟨h1, h2, le_refl _⟩
  | frame hasFace =>
    by_cases hgate : b.state = .IDLE ∨ b.state = .COUNTDOWN
    · simp only [boothStep, onFrame, if_pos hgate]
      rcases hE : (handleResultsFrames CONFIG_DETECTION_FRAME_THRESHOLD b.det hasFace).2
        with _ | p
      · simp only [hE]
        exact ⟨h1, fun h => h2 h, le_refl _⟩
      · simp only [hE]
        rcases onPersonPresenceChange_cases
            { b with det := (handleResultsFrames CONFIG_DETECTION_FRAME_THRESHOLD b.det hasFace).1 }
            p with htri | htri | htri <;> rw [htri]
        · exact ⟨h1, fun h => BoothState.noConfusion h, le_refl _⟩
        · refine ⟨?_, fun h => BoothState.noConfusion h, le_refl _⟩
          show b.resets + 0 ≤ 1
          omega
        · exact ⟨h1, fun h => h2 h, le_refl _⟩
    · simp only [boothStep, onFrame, if_neg hgate]
      exact ⟨h1, h2, le_refl _⟩

/-- Helper for C8: the session invariant extended over any trace of
session-local events. -/
theorem qr_session_run (b : Booth) (evs : List BoothEvent)
    (hevs : ∀ e ∈ evs, sessionLocal e = true)
    (h1 : b.resets + b.qrScheduled.toNat ≤ 1)
    (h2 : b.state = .QR → b.qrScheduled = true) :
    ((boothRun b evs).resets + (boothRun b evs).qrScheduled.toNat ≤ 1) ∧
    b.resets ≤ (boothRun b evs).resets := by
  induction evs generalizing b with
  | nil => exact ⟨h1, le_refl _⟩
  | cons e es ih =>
    have hstep := qr_session_step b e (hevs e (List.mem_cons_self e es)) h1 h2
    have hrest := ih (boothStep b e)
      (fun x hx => hevs x (List.mem_cons_of_mem e hx)) hstep.1 hstep.2.1
    exact ⟨hrest.1, le_trans hstep.2.2 hrest.2⟩

/-- Claim C8: for a `ShowingResult` session (machine in `QR`, the reset
timeout pending, no reset emitted yet), at most one reset ever fires
over any trace of session-local events, and after either the natural
expiry or the early cancel the reset count is exactly one and stays one
— in particular an early cancel clears the pending timeout
(`hideQRScreen` inside `showIdle`), so the original timer's expiry never
produces a second reset. -/
theorem C8_single_reset (b : Booth) (evs : List BoothEvent)
    (hb : b.state = .QR) (hq : b.qrScheduled = true) (hr : b.resets = 0)
    (hevs : ∀ e ∈ evs, sessionLocal e = true) :
    (boothRun b evs).resets ≤ 1 ∧
    (∀ evs2, (∀ e ∈ evs2, sessionLocal e = true) →
      (boothRun (boothStep b .qrExpiry) evs2).resets = 1 ∧
      (boothRun (boothStep b .cancelEarly) evs2).resets = 1) := by
  have hpot : b.resets + b.qrScheduled.toNat ≤ 1 := by
    rw [hr, hq]
    decide
  constructor
  · have h := qr_session_run b evs hevs hpot (fun _ => hq)
    omega
  · intro evs2 hevs2
    have hexp : boothStep b .qrExpiry
        = toIdle { b with qrScheduled := false, resets := b.resets + 1 } := by
      simp [boothStep, qrExpiryStep, hq]
    have hcan : boothStep b .cancelEarly
        = toIdle { b with resets := b.resets + 1 } := by
      simp [boothStep, cancelEarlyStep, hb]
    have hresE : (boothStep b .qrExpiry).resets = 1 := by
      rw [hexp]; show b.resets + 1 = 1; omega
    have hresC : (boothStep b .cancelEarly).resets = 1 := by
      rw [hcan]; show b.resets + 1 = 1; omega
    have hpotE : (boothStep b .qrExpiry).resets
        + (boothStep b .qrExpiry).qrScheduled.toNat ≤ 1 := by
      rw [hexp]
      show b.resets + 1 + 0 ≤ 1
      omega
    have hpotC : (boothStep b .cancelEarly).resets
        + (boothStep b .cancelEarly).qrScheduled.toNat ≤ 1 := by
      rw [hcan]
      show b.resets + 1 + 0 ≤ 1
      omega
    have hstE : (boothStep b .qrExpiry).state = .QR
        → (boothStep b .qrExpiry).qrScheduled = true := by
      rw [hexp]; exact fun h => BoothState.noConfusion h
    have hstC : (boothStep b .cancelEarly).state = .QR
        → (boothStep b .cancelEarly).qrScheduled = true := by
      rw [hcan]; exact fun h => BoothState.noConfusion h
    constructor
    · have h := qr_session_run (boothStep b .qrExpiry) evs2 hevs2 hpotE hstE
      omega
    · have h := qr_session_run (boothStep b .cancelEarly) evs2 hevs2 hpotC hstC
      omega

/-- Witness for C8: a session that expires naturally and then sees a
second (cleared) expiry opportunity emits exactly one reset. -/
theorem C8_single_reset_witness :
    (boothRun ⟨.QR, detInit, false, 0, false, true, [], 0⟩
        [.qrExpiry, .qrExpiry]).resets ≤ 1 :=
  (C8_single_reset ⟨.QR, detInit, false, 0, false, true, [], 0⟩
    [.qrExpiry, .qrExpiry] rfl rfl rfl (by decide)).1

end GiggleGrid
